import Mathlib

/-!
# A shallow embedding of the dacite language toolchain

This file embeds the four stages of the dacite pipeline — lexer, parser,
bytecode compiler and stack VM — as executable Lean definitions translated
from the C++ sources (`src/lexer.cpp`, `src/parser.cpp`, `src/compiler.cpp`,
`src/chunk.cpp`, `src/value.cpp`, `src/vm.cpp`), and proves the testable
properties of the specification against them.

Modelling conventions:
* C++ `std::string` / `std::string_view` scanning over an index becomes a
  `List Char` plus a cursor `Nat`; machine integers become `Nat`/`Int`
  (`uint8_t` truncation appears as an explicit `% 256`; `int32_t` literals
  are range-checked exactly where the code checks them).
* Loops are expressed through fuel-indexed recursors.  Every loop of the
  source advances its cursor by at least one unit per iteration, so a fuel
  of `remaining length + 1` computes exactly what the C++ loop computes.
* Stateful classes become explicit state records threaded through the
  functions; a member function `f` of class `C` becomes `C.f : C → ... × C`.
* The operand stack of the VM (`std::vector` used through `push_back` /
  `pop_back` / `back`) is represented with the vector's back as the head of
  a Lean list, so pushing is `::` and the top of the stack is the head.
* The binary-expression machinery (the `BinaryExpression` AST node, the
  bodies of `Parser::parse_comparison` / `parse_term` / `parse_factor` /
  `token_to_binary_operator`, and the compiler lowering of binary nodes) is
  declared in `parser.h`, referenced by `ast.cpp` and exercised by the test
  suite, but its definitions are not part of the sources at hand; those
  definitions are modelled from the specification and are marked
  `Modelled from the spec:` in their doc comments.
-/

namespace Dacite

/-- `SourcePosition` from `source_span.h`: 1-based line/column, 0-based
byte offset, defaulting to `(1, 1, 0)`. -/
structure SourcePosition where
  line : Nat := 1
  column : Nat := 1
  offset : Nat := 0
deriving Repr, DecidableEq

/-- `SourceSpan` from `source_span.h`: a start and an end position; the
default-constructed span (used for synthetic tokens) carries two default
positions.  The C++ field `end` is a Lean keyword and is rendered `stop`. -/
structure SourceSpan where
  start : SourcePosition := {}
  stop : SourcePosition := {}
deriving Repr, DecidableEq

/-- `TokenType` from `token.h`. -/
inductive TokenType where
  | EOF_TOKEN
  | IDENTIFIER
  | PACKAGE | FN | VOID | RETURN | IF | ELSE | WHILE | FOR | TRUE | FALSE
  | INTEGER_LITERAL | FLOAT_LITERAL | STRING_LITERAL | CHAR_LITERAL
  | PLUS | MINUS | MULTIPLY | DIVIDE | MODULO
  | ASSIGN | PLUS_ASSIGN | MINUS_ASSIGN | MULTIPLY_ASSIGN | DIVIDE_ASSIGN | MODULO_ASSIGN
  | EQUAL | NOT_EQUAL | LESS_THAN | LESS_EQUAL | GREATER_THAN | GREATER_EQUAL
  | LOGICAL_AND | LOGICAL_OR | LOGICAL_NOT | ARROW
  | SEMICOLON | COMMA | DOT | COLON
  | LEFT_PAREN | RIGHT_PAREN | LEFT_BRACE | RIGHT_BRACE | LEFT_BRACKET | RIGHT_BRACKET
  | SINGLE_LINE_COMMENT | MULTI_LINE_COMMENT | WHITESPACE
  | ERROR
deriving Repr, DecidableEq

/-- `Token` from `token.h`: a type, an optional text payload (empty when the
type alone determines the token) and a span. -/
structure Token where
  type : TokenType
  value : String := ""
  span : SourceSpan := {}
deriving Repr, DecidableEq

/-- `keyword_or_identifier` from `token.cpp`: the fixed keyword table;
any other text is an `IDENTIFIER`. -/
def keyword_or_identifier (text : String) : TokenType :=
  if text = "package" then .PACKAGE
  else if text = "fn" then .FN
  else if text = "void" then .VOID
  else if text = "return" then .RETURN
  else if text = "if" then .IF
  else if text = "else" then .ELSE
  else if text = "while" then .WHILE
  else if text = "for" then .FOR
  else if text = "true" then .TRUE
  else if text = "false" then .FALSE
  else .IDENTIFIER

/-- `LexerConfig` from `lexer.h`.  `debug_mode`/`verbose_mode` only drive
console logging in the C++ and never influence state or results. -/
structure LexerConfig where
  emit_comments : Bool := false
  emit_whitespace : Bool := false
  debug_mode : Bool := false
  verbose_mode : Bool := false
deriving Repr, DecidableEq

/-- `LexerError` from `lexer.h`. -/
structure LexerError where
  message : String
  span : SourceSpan
deriving Repr, DecidableEq

/-- The `Lexer` state (`lexer.h`): the source, the byte cursor
`current_pos_`, the human position `current_position_`, the configuration
and the accumulated error list.  The single-token lookahead cache
`peeked_token_` is omitted: it starts empty and `next_token`/`tokenize_all`
never fill it, so it never affects the functions embedded here. -/
structure Lexer where
  source : List Char
  current_pos : Nat := 0
  current_position : SourcePosition := {}
  config : LexerConfig := {}
  errors : List LexerError := []
deriving Repr

/-- The NUL character returned by `current_char`/`peek_char` past the end. -/
def nulChar : Char := Char.ofNat 0

/-- `Lexer::current_char`. -/
def Lexer.current_char (st : Lexer) : Char :=
  st.source.getD st.current_pos nulChar

/-- `Lexer::peek_char` (default offset 1). -/
def Lexer.peek_char (st : Lexer) (offset : Nat := 1) : Char :=
  st.source.getD (st.current_pos + offset) nulChar

/-- `Lexer::advance`: move one character forward, updating line/column and
the byte offset; a no-op at the end of input. -/
def Lexer.advance (st : Lexer) : Lexer :=
  if st.current_pos < st.source.length then
    let p := st.current_position
    let p' :=
      if st.current_char = '\n' then
        { line := p.line + 1, column := 1, offset := p.offset + 1 }
      else
        { p with column := p.column + 1, offset := p.offset + 1 }
    { st with current_pos := st.current_pos + 1, current_position := p' }
  else st

/-- `Lexer::is_alpha`: `std::isalpha(c) || c == '_'` (ASCII letters). -/
def Lexer.is_alpha (c : Char) : Bool := c.isAlpha || c == '_'

/-- `Lexer::is_digit`. -/
def Lexer.is_digit (c : Char) : Bool := c.isDigit

/-- `Lexer::is_hex_digit` (`std::isxdigit`). -/
def Lexer.is_hex_digit (c : Char) : Bool :=
  c.isDigit || ('a' ≤ c && c ≤ 'f') || ('A' ≤ c && c ≤ 'F')

/-- `Lexer::is_alnum` (`std::isalnum`). -/
def Lexer.is_alnum (c : Char) : Bool := c.isAlphanum

/-- `Lexer::is_whitespace`: exactly space, tab, newline, carriage return. -/
def Lexer.is_whitespace (c : Char) : Bool :=
  c == ' ' || c == '\t' || c == '\n' || c == '\r'

/-- `Lexer::make_span`: from a recorded start to the current position. -/
def Lexer.make_span (st : Lexer) (start : SourcePosition) : SourceSpan :=
  { start := start, stop := st.current_position }

/-- `Lexer::make_token` (with payload; the payload-free overload passes ""). -/
def Lexer.make_token (st : Lexer) (type : TokenType) (value : String)
    (start : SourcePosition) : Token :=
  { type := type, value := value, span := st.make_span start }

/-- `Lexer::report_error`. -/
def Lexer.report_error (st : Lexer) (message : String)
    (start : SourcePosition) : Lexer :=
  { st with errors := st.errors ++ [⟨message, st.make_span start⟩] }

/-- `Lexer::make_error_token`: records the error and returns an ERROR token
whose payload is the message. -/
def Lexer.make_error_token (st : Lexer) (message : String)
    (start : SourcePosition) : Token × Lexer :=
  let st := st.report_error message start
  ({ type := .ERROR, value := message, span := st.make_span start }, st)

/-- Fuel-indexed body of the `while (pos < len && p) { acc += c; advance; }`
scanning loops of `lexer.cpp`; the fuel `remaining + 1` given by
`Lexer.scanWhile` always suffices since `advance` consumes one character. -/
def Lexer.scanWhileGo : Nat → Lexer → (Lexer → Bool) → String → String × Lexer
  | 0, st, _, acc => (acc, st)
  | fuel + 1, st, p, acc =>
    if st.current_pos < st.source.length && p st then
      Lexer.scanWhileGo fuel st.advance p (acc.push st.current_char)
    else
      (acc, st)

/-- Scan characters while the predicate holds, as the `lexer.cpp` loops do. -/
def Lexer.scanWhile (st : Lexer) (p : Lexer → Bool) : String × Lexer :=
  Lexer.scanWhileGo (st.source.length - st.current_pos + 1) st p ""

/-- `Lexer::lex_identifier_or_keyword`. -/
def Lexer.lex_identifier_or_keyword (st : Lexer) : Token × Lexer :=
  let start := st.current_position
  let (identifier, st) :=
    st.scanWhile (fun l => Lexer.is_alnum l.current_char || l.current_char == '_')
  (st.make_token (keyword_or_identifier identifier) identifier start, st)

/-- `Lexer::lex_number`: hex (`0x`), binary (`0b`), octal (leading `0` and a
digit; only digits below `8` are consumed), or decimal with an optional
fractional part that reclassifies the token as FLOAT_LITERAL. -/
def Lexer.lex_number (st : Lexer) : Token × Lexer :=
  let start := st.current_position
  if st.current_char = '0' ∧ st.peek_char = 'x' then
    let number := (String.mk [st.current_char]).push st.advance.current_char
    let st := st.advance.advance
    let (digits, st) := st.scanWhile (fun l => Lexer.is_hex_digit l.current_char)
    (st.make_token .INTEGER_LITERAL (number ++ digits) start, st)
  else if st.current_char = '0' ∧ st.peek_char = 'b' then
    let number := (String.mk [st.current_char]).push st.advance.current_char
    let st := st.advance.advance
    let (digits, st) :=
      st.scanWhile (fun l => l.current_char == '0' || l.current_char == '1')
    (st.make_token .INTEGER_LITERAL (number ++ digits) start, st)
  else if st.current_char = '0' ∧ Lexer.is_digit st.peek_char then
    let (number, st) :=
      st.scanWhile (fun l => Lexer.is_digit l.current_char && l.current_char < '8')
    (st.make_token .INTEGER_LITERAL number start, st)
  else
    let (number, st) := st.scanWhile (fun l => Lexer.is_digit l.current_char)
    if st.current_char = '.' ∧ Lexer.is_digit st.peek_char then
      let number := number.push st.current_char
      let st := st.advance
      let (frac, st) := st.scanWhile (fun l => Lexer.is_digit l.current_char)
      (st.make_token .FLOAT_LITERAL (number ++ frac) start, st)
    else
      (st.make_token .INTEGER_LITERAL number start, st)

/-- Map an escape character to the escaped character, shared by the string
and character literal lexers (`lexer.cpp` switch on escapes). -/
def escapeChar : Char → Option Char
  | 'n' => some '\n'
  | 't' => some '\t'
  | 'r' => some '\r'
  | '\\' => some '\\'
  | '"' => some '"'
  | '\'' => some '\''
  | '0' => some nulChar
  | _ => none

/-- Fuel-indexed body of the `Lexer::lex_string_literal` scan loop. -/
def Lexer.lexStringGo : Nat → Lexer → SourcePosition → String → Token × Lexer
  | 0, st, start, _ => st.make_error_token "Unterminated string literal" start
  | fuel + 1, st, start, literal =>
    if st.current_pos < st.source.length ∧ st.current_char ≠ '"' then
      if st.current_char = '\\' then
        let st := st.advance
        if st.current_pos ≥ st.source.length then
          st.make_error_token "Unterminated string literal" start
        else
          match escapeChar st.current_char with
          | some c => Lexer.lexStringGo fuel st.advance start (literal.push c)
          | none => st.make_error_token "Invalid escape sequence" start
      else
        Lexer.lexStringGo fuel st.advance start (literal.push st.current_char)
    else
      if st.current_pos ≥ st.source.length then
        st.make_error_token "Unterminated string literal" start
      else
        let st := st.advance
        (st.make_token .STRING_LITERAL literal start, st)

/-- `Lexer::lex_string_literal`. -/
def Lexer.lex_string_literal (st : Lexer) : Token × Lexer :=
  let start := st.current_position
  let st := st.advance
  Lexer.lexStringGo (st.source.length - st.current_pos + 1) st start ""

/-- `Lexer::lex_char_literal`. -/
def Lexer.lex_char_literal (st : Lexer) : Token × Lexer :=
  let start := st.current_position
  let st := st.advance
  if st.current_pos ≥ st.source.length ∨ st.current_char = '\'' then
    st.make_error_token "Empty character literal" start
  else
    let (literal? , st) :=
      if st.current_char = '\\' then
        let st := st.advance
        if st.current_pos ≥ st.source.length then
          (none, st)
        else
          match escapeChar st.current_char with
          | some c => (some (String.mk [c]), st)
          | none => (some "", st)
      else
        (some (String.mk [st.current_char]), st)
    match literal? with
    | none => st.make_error_token "Unterminated character literal" start
    | some literal =>
      if literal = "" then
        st.make_error_token "Invalid escape sequence in character literal" start
      else
        let st := st.advance
        if st.current_pos ≥ st.source.length ∨ st.current_char ≠ '\'' then
          st.make_error_token "Unterminated character literal" start
        else
          let st := st.advance
          (st.make_token .CHAR_LITERAL literal start, st)

/-- `Lexer::lex_single_line_comment`: collects from the current `//` to the
end of line (exclusive). -/
def Lexer.lex_single_line_comment (st : Lexer) : Token × Lexer :=
  let start := st.current_position
  let (comment, st) := st.scanWhile (fun l => l.current_char != '\n')
  (st.make_token .SINGLE_LINE_COMMENT comment start, st)

/-- Fuel-indexed body of the `Lexer::lex_multi_line_comment` scan loop. -/
def Lexer.lexMultiGo : Nat → Lexer → String → String × Lexer
  | 0, st, comment => (comment, st)
  | fuel + 1, st, comment =>
    if st.current_pos < st.source.length then
      if st.current_char = '*' ∧ st.peek_char = '/' then
        let comment := (comment.push st.current_char)
        let st := st.advance
        let comment := comment.push st.current_char
        (comment, st.advance)
      else
        Lexer.lexMultiGo fuel st.advance (comment.push st.current_char)
    else
      (comment, st)

/-- `Lexer::lex_multi_line_comment`: note that the C++ reports
"Unterminated multi-line comment" whenever the cursor reaches the end of
input after the loop — even when the comment was properly closed by the
very last characters of the input. -/
def Lexer.lex_multi_line_comment (st : Lexer) : Token × Lexer :=
  let start := st.current_position
  let st := st.advance.advance
  let (comment, st) := Lexer.lexMultiGo (st.source.length - st.current_pos + 1) st ""
  if st.current_pos ≥ st.source.length then
    st.make_error_token "Unterminated multi-line comment" start
  else
    (st.make_token .MULTI_LINE_COMMENT comment start, st)

/-- `Lexer::match` folded into its use sites: the two-character operator
cases of `lex_operator_or_punctuation` below test the next character after
the initial `advance`. -/
def Lexer.matchChar (st : Lexer) (expected : Char) : Bool × Lexer :=
  if st.current_char = expected then (true, st.advance) else (false, st)

/-- `Lexer::lex_operator_or_punctuation`: maximal munch of the two-character
operators, then the single-character forms; lone `&` and `|` are errors, and
an unrecognized character yields an error token after being consumed. -/
def Lexer.lex_operator_or_punctuation (st : Lexer) : Token × Lexer :=
  let start := st.current_position
  let c := st.current_char
  if c = '+' then
    let st := st.advance
    let (m, st) := st.matchChar '='
    if m then (st.make_token .PLUS_ASSIGN "" start, st)
    else (st.make_token .PLUS "" start, st)
  else if c = '-' then
    let st := st.advance
    let (m, st) := st.matchChar '='
    if m then (st.make_token .MINUS_ASSIGN "" start, st)
    else
      let (m2, st) := st.matchChar '>'
      if m2 then (st.make_token .ARROW "" start, st)
      else (st.make_token .MINUS "" start, st)
  else if c = '*' then
    let st := st.advance
    let (m, st) := st.matchChar '='
    if m then (st.make_token .MULTIPLY_ASSIGN "" start, st)
    else (st.make_token .MULTIPLY "" start, st)
  else if c = '/' then
    let st := st.advance
    let (m, st) := st.matchChar '='
    if m then (st.make_token .DIVIDE_ASSIGN "" start, st)
    else (st.make_token .DIVIDE "" start, st)
  else if c = '%' then
    let st := st.advance
    let (m, st) := st.matchChar '='
    if m then (st.make_token .MODULO_ASSIGN "" start, st)
    else (st.make_token .MODULO "" start, st)
  else if c = '=' then
    let st := st.advance
    let (m, st) := st.matchChar '='
    if m then (st.make_token .EQUAL "" start, st)
    else (st.make_token .ASSIGN "" start, st)
  else if c = '!' then
    let st := st.advance
    let (m, st) := st.matchChar '='
    if m then (st.make_token .NOT_EQUAL "" start, st)
    else (st.make_token .LOGICAL_NOT "" start, st)
  else if c = '<' then
    let st := st.advance
    let (m, st) := st.matchChar '='
    if m then (st.make_token .LESS_EQUAL "" start, st)
    else (st.make_token .LESS_THAN "" start, st)
  else if c = '>' then
    let st := st.advance
    let (m, st) := st.matchChar '='
    if m then (st.make_token .GREATER_EQUAL "" start, st)
    else (st.make_token .GREATER_THAN "" start, st)
  else if c = '&' then
    let st := st.advance
    let (m, st) := st.matchChar '&'
    if m then (st.make_token .LOGICAL_AND "" start, st)
    else st.make_error_token "Invalid character '&'" start
  else if c = '|' then
    let st := st.advance
    let (m, st) := st.matchChar '|'
    if m then (st.make_token .LOGICAL_OR "" start, st)
    else st.make_error_token "Invalid character '|'" start
  else if c = ';' then let st := st.advance; (st.make_token .SEMICOLON "" start, st)
  else if c = ',' then let st := st.advance; (st.make_token .COMMA "" start, st)
  else if c = '.' then let st := st.advance; (st.make_token .DOT "" start, st)
  else if c = ':' then let st := st.advance; (st.make_token .COLON "" start, st)
  else if c = '(' then let st := st.advance; (st.make_token .LEFT_PAREN "" start, st)
  else if c = ')' then let st := st.advance; (st.make_token .RIGHT_PAREN "" start, st)
  else if c = '\x7b' then let st := st.advance; (st.make_token .LEFT_BRACE "" start, st)
  else if c = '\x7d' then let st := st.advance; (st.make_token .RIGHT_BRACE "" start, st)
  else if c = '[' then let st := st.advance; (st.make_token .LEFT_BRACKET "" start, st)
  else if c = ']' then let st := st.advance; (st.make_token .RIGHT_BRACKET "" start, st)
  else
    let st := st.advance
    st.make_error_token ("Unexpected character '" ++ String.mk [c] ++ "'") start

/-- Fuel-indexed body of `Lexer::next_token`.  The fuel only decreases on
the self-recursive comment-skipping call, which consumes at least the two
characters opening the comment, so `remaining + 1` fuel always suffices. -/
def Lexer.nextTokenGo : Nat → Lexer → Token × Lexer
  | 0, st => (st.make_token .EOF_TOKEN "" st.current_position, st)
  | fuel + 1, st =>
    -- whitespace: collected into one token when emitted, skipped otherwise
    let wsResult : Option (Token × Lexer) × Lexer :=
      if st.current_pos < st.source.length ∧ Lexer.is_whitespace st.current_char then
        if st.config.emit_whitespace then
          let start := st.current_position
          let (ws, st') := st.scanWhile (fun l => Lexer.is_whitespace l.current_char)
          (some (st'.make_token .WHITESPACE ws start, st'), st')
        else
          let (_, st') := st.scanWhile (fun l => Lexer.is_whitespace l.current_char)
          (none, st')
      else
        (none, st)
    match wsResult with
    | (some r, _) => r
    | (none, st) =>
      if st.current_pos ≥ st.source.length then
        (st.make_token .EOF_TOKEN "" st.current_position, st)
      else
        let c := st.current_char
        if Lexer.is_alpha c || c == '_' then
          st.lex_identifier_or_keyword
        else if Lexer.is_digit c then
          st.lex_number
        else if c = '"' then
          st.lex_string_literal
        else if c = '\'' then
          st.lex_char_literal
        else if c = '/' ∧ st.peek_char = '/' then
          let (token, st) := st.lex_single_line_comment
          if st.config.emit_comments then (token, st)
          else Lexer.nextTokenGo fuel st
        else if c = '/' ∧ st.peek_char = '*' then
          let (token, st) := st.lex_multi_line_comment
          if st.config.emit_comments then (token, st)
          else Lexer.nextTokenGo fuel st
        else
          st.lex_operator_or_punctuation

/-- `Lexer::next_token`. -/
def Lexer.next_token (st : Lexer) : Token × Lexer :=
  Lexer.nextTokenGo (st.source.length - st.current_pos + 1) st

/-- `Lexer::at_end`. -/
def Lexer.at_end (st : Lexer) : Bool :=
  st.current_pos ≥ st.source.length

/-- Fuel-indexed body of the `Lexer::tokenize_all` loop: each non-EOF token
consumes at least one character, so `length + 1` fuel always suffices. -/
def Lexer.tokenizeAllGo : Nat → Lexer → List Token × Lexer
  | 0, st => ([], st)
  | fuel + 1, st =>
    if st.at_end then ([], st)
    else
      let (token, st) := st.next_token
      if token.type = .EOF_TOKEN then ([token], st)
      else
        let (rest, st) := Lexer.tokenizeAllGo fuel st
        (token :: rest, st)

/-- `Lexer::tokenize_all`. -/
def Lexer.tokenize_all (st : Lexer) : List Token × Lexer :=
  Lexer.tokenizeAllGo (st.source.length + 1) st

/-- Construct a lexer over a source string (the `Lexer` constructor). -/
def Lexer.init (source : String) (config : LexerConfig := {}) : Lexer :=
  { source := source.data, config := config }

/-- Tokenize a source string with the default configuration. -/
def tokenizeString (source : String) : List Token :=
  (Lexer.init source).tokenize_all.1

/-! ## AST (`ast.h` / `ast.cpp`) -/

/-- Modelled from the spec: the `BinaryOperator` tag of a
`BinaryExpression`.  The enumerators are those that `ast.cpp`
(`binary_operator_to_string`) enumerates; the enum's defining declaration is
not among the sources at hand. -/
inductive BinaryOperator where
  | ADD | SUBTRACT | MULTIPLY | DIVIDE
  | EQUAL | NOT_EQUAL | LESS_THAN | LESS_EQUAL | GREATER_THAN | GREATER_EQUAL
deriving Repr, DecidableEq

/-- `binary_operator_to_string` from `ast.cpp`. -/
def binary_operator_to_string : BinaryOperator → String
  | .ADD => "+"
  | .SUBTRACT => "-"
  | .MULTIPLY => "*"
  | .DIVIDE => "/"
  | .EQUAL => "=="
  | .NOT_EQUAL => "!="
  | .LESS_THAN => "<"
  | .LESS_EQUAL => "<="
  | .GREATER_THAN => ">"
  | .GREATER_EQUAL => ">="

/-- The `Expression` hierarchy of `ast.h`: `IntegerLiteral` (the literal's
original text, converted only at compile time) and — modelled from the spec,
since its class is referenced by `ast.cpp` and the tests but not among the
sources at hand — `BinaryExpression` (operator tag plus owned left and
right children). -/
inductive Expression where
  | integerLiteral (value : String) (span : SourceSpan)
  | binaryExpression (operator : BinaryOperator) (left right : Expression)
      (span : SourceSpan)
deriving Repr, DecidableEq

/-- The span of an expression node (the `ASTNode::span` field). -/
def Expression.span : Expression → SourceSpan
  | .integerLiteral _ s => s
  | .binaryExpression _ _ _ s => s

/-- Span-free shape of an expression, used to state parser claims that are
about node kinds, operators and literal texts only. -/
inductive ExprShape where
  | lit (value : String)
  | bin (operator : BinaryOperator) (left right : ExprShape)
deriving Repr, DecidableEq

/-- Erase the spans of an expression tree. -/
def Expression.shape : Expression → ExprShape
  | .integerLiteral v _ => .lit v
  | .binaryExpression op l r _ => .bin op l.shape r.shape

/-- The `Statement` hierarchy of `ast.h`: `ReturnStatement` (optional
expression; `none` both for a bare `return;` and when the expression failed
to parse) and `BlockStatement` (which C++ also derives from `Statement`,
though the parser only ever produces blocks as function bodies). -/
inductive Statement where
  | returnStatement (expression : Option Expression) (span : SourceSpan)
  | blockStatementStmt (statements : List Statement) (span : SourceSpan)
deriving Repr

/-- `BlockStatement` from `ast.h`, in its role as a function body. -/
structure BlockStatement where
  statements : List Statement
  span : SourceSpan
deriving Repr

/-- `Type` from `ast.h` (named `TypeNode` because `Type` is a Lean keyword):
a type name with a span. -/
structure TypeNode where
  name : String
  span : SourceSpan
deriving Repr, DecidableEq

/-- `PackageDeclaration` from `ast.h`. -/
structure PackageDeclaration where
  package_name : String
  span : SourceSpan
deriving Repr, DecidableEq

/-- `FunctionDeclaration` from `ast.h`: name, owned return type, owned body.
The C++ holds the type and body through possibly-null pointers — the
compiler checks the body for null — so both are `Option`s, although the
parser always produces them. -/
structure FunctionDeclaration where
  function_name : String
  return_type : Option TypeNode
  body : Option BlockStatement
  span : SourceSpan
deriving Repr

/-- The `Declaration` hierarchy of `ast.h`: `PackageDeclaration` and
`FunctionDeclaration` both derive from `Declaration`; the compiler
recovers the concrete kind via `dynamic_cast`. -/
inductive Declaration where
  | packageDecl (d : PackageDeclaration)
  | functionDecl (f : FunctionDeclaration)
deriving Repr

/-- `Program` from `ast.h`. -/
structure Program where
  package_declaration : Option PackageDeclaration
  declarations : List Declaration
  span : SourceSpan
deriving Repr

/-! ## Parser (`parser.h` / `parser.cpp`) -/

/-- `ParserError` from `parser.h`. -/
structure ParserError where
  message : String
  span : SourceSpan
deriving Repr, DecidableEq

/-- `ParserConfig` from `parser.h`; neither field influences parsing
results (`debug_mode` logs, `recover_from_errors` is never read). -/
structure ParserConfig where
  debug_mode : Bool := false
  recover_from_errors : Bool := true
deriving Repr, DecidableEq

/-- The `Parser` state (`parser.h`): the token vector, the index
`current_token_` and the accumulated error list. -/
structure Parser where
  tokens : List Token
  current_token : Nat := 0
  errors : List ParserError := []
deriving Repr

/-- The synthetic EOF token `Parser::current_token` returns past the end
(`Token(TokenType::EOF_TOKEN, SourceSpan{})`). -/
def syntheticEof : Token := { type := .EOF_TOKEN }

/-- `Parser::current_token`. -/
def Parser.currentToken (st : Parser) : Token :=
  st.tokens.getD st.current_token syntheticEof

/-- `Parser::at_end`. -/
def Parser.at_end (st : Parser) : Bool :=
  st.current_token ≥ st.tokens.length ∨ st.currentToken.type = .EOF_TOKEN

/-- `Parser::check`. -/
def Parser.check (st : Parser) (type : TokenType) : Bool :=
  st.currentToken.type = type

/-- `Parser::advance`. -/
def Parser.advance (st : Parser) : Parser :=
  if ¬st.at_end then { st with current_token := st.current_token + 1 } else st

/-- `Parser::report_error` (at the current token's span). -/
def Parser.report_error (st : Parser) (message : String) : Parser :=
  { st with errors := st.errors ++ [⟨message, st.currentToken.span⟩] }

/-- `Parser::consume`: on a match, return the token and advance; otherwise
record the error and return the current token unconsumed. -/
def Parser.consume (st : Parser) (type : TokenType) (error_message : String) :
    Token × Parser :=
  if st.check type then (st.currentToken, st.advance)
  else (st.currentToken, st.report_error error_message)

/-- `Parser::parse_package_declaration`. -/
def Parser.parse_package_declaration (st : Parser) : PackageDeclaration × Parser :=
  let (package_token, st) := st.consume .PACKAGE "Expected 'package'"
  let (name_token, st) := st.consume .IDENTIFIER "Expected package name"
  let (_, st) := st.consume .SEMICOLON "Expected ';' after package declaration"
  (⟨name_token.value, ⟨package_token.span.start, name_token.span.stop⟩⟩, st)

/-- `Parser::parse_type`. -/
def Parser.parse_type (st : Parser) : TypeNode × Parser :=
  let (type_token, st) := st.consume .IDENTIFIER "Expected type name"
  (⟨type_token.value, type_token.span⟩, st)

/-- `Parser::parse_primary_expression`: only integer literals are primary
expressions; anything else records "Expected expression" and yields
nothing. -/
def Parser.parse_primary_expression (st : Parser) : Option Expression × Parser :=
  if st.check .INTEGER_LITERAL then
    let token := st.currentToken
    let st := st.advance
    (some (.integerLiteral token.value token.span), st)
  else
    (none, st.report_error "Expected expression")

/-- Modelled from the spec: `Parser::token_to_binary_operator` (declared in
`parser.h`, body not among the sources at hand), mapping operator token
types to `BinaryOperator` tags; non-operator tokens never reach it. -/
def Parser.token_to_binary_operator : TokenType → BinaryOperator
  | .PLUS => .ADD
  | .MINUS => .SUBTRACT
  | .MULTIPLY => .MULTIPLY
  | .DIVIDE => .DIVIDE
  | .EQUAL => .EQUAL
  | .NOT_EQUAL => .NOT_EQUAL
  | .LESS_THAN => .LESS_THAN
  | .LESS_EQUAL => .LESS_EQUAL
  | .GREATER_THAN => .GREATER_THAN
  | .GREATER_EQUAL => .GREATER_EQUAL
  | _ => .ADD

/-- Modelled from the spec: the left-associative fold shared by the three
binary precedence levels (`comparison`, `term`, `factor` of §4.2): while
the current token is one of the level's operators, consume it, parse the
next-lower level, and fold into a left-growing `BinaryExpression` whose
span covers both children; a failed right operand aborts the expression.
Each iteration consumes the operator token, so `tokens.length + 1` fuel
always suffices. -/
def Parser.binaryLevelGo (ops : List TokenType)
    (lower : Parser → Option Expression × Parser) :
    Nat → Expression → Parser → Option Expression × Parser
  | 0, left, st => (some left, st)
  | fuel + 1, left, st =>
    let t := st.currentToken
    if t.type ∈ ops then
      let st := st.advance
      let (right?, st) := lower st
      match right? with
      | none => (none, st)
      | some right =>
        Parser.binaryLevelGo ops lower fuel
          (.binaryExpression (Parser.token_to_binary_operator t.type) left right
            ⟨left.span.start, right.span.stop⟩) st
    else
      (some left, st)

/-- Modelled from the spec: one binary precedence level — parse the lower
level once, then fold trailing `(op lower)*` groups. -/
def Parser.binaryLevel (ops : List TokenType)
    (lower : Parser → Option Expression × Parser) (st : Parser) :
    Option Expression × Parser :=
  let (left?, st) := lower st
  match left? with
  | none => (none, st)
  | some left => Parser.binaryLevelGo ops lower (st.tokens.length + 1) left st

/-- Modelled from the spec: `Parser::parse_factor`
(`factor := primary (('*'|'/') primary)*`). -/
def Parser.parse_factor (st : Parser) : Option Expression × Parser :=
  Parser.binaryLevel [.MULTIPLY, .DIVIDE] Parser.parse_primary_expression st

/-- Modelled from the spec: `Parser::parse_term`
(`term := factor (('+'|'-') factor)*`). -/
def Parser.parse_term (st : Parser) : Option Expression × Parser :=
  Parser.binaryLevel [.PLUS, .MINUS] Parser.parse_factor st

/-- Modelled from the spec: `Parser::parse_comparison`
(`comparison := term (('=='|'!='|'<'|'<='|'>'|'>=') term)*`). -/
def Parser.parse_comparison (st : Parser) : Option Expression × Parser :=
  Parser.binaryLevel
    [.EQUAL, .NOT_EQUAL, .LESS_THAN, .LESS_EQUAL, .GREATER_THAN, .GREATER_EQUAL]
    Parser.parse_term st

/-- Modelled from the spec: `Parser::parse_expression` dispatches to the
top of the precedence chain (`expression := comparison`, §4.2). -/
def Parser.parse_expression (st : Parser) : Option Expression × Parser :=
  st.parse_comparison

/-- `Parser::parse_return_statement`. -/
def Parser.parse_return_statement (st : Parser) : Statement × Parser :=
  let (return_token, st) := st.consume .RETURN "Expected 'return'"
  let (expression, st) :=
    if ¬st.check .SEMICOLON then st.parse_expression
    else ((none : Option Expression), st)
  let (semicolon, st) := st.consume .SEMICOLON "Expected ';' after return statement"
  (.returnStatement expression ⟨return_token.span.start, semicolon.span.stop⟩, st)

/-- `Parser::parse_statement`: only `return` starts a statement. -/
def Parser.parse_statement (st : Parser) : Option Statement × Parser :=
  if st.check .RETURN then
    let (stmt, st) := st.parse_return_statement
    (some stmt, st)
  else
    (none, st.report_error "Expected statement")

/-- Fuel-indexed body of `Parser::synchronize`'s scan loop. -/
def Parser.synchronizeGo : Nat → Parser → Parser
  | 0, st => st
  | fuel + 1, st =>
    if ¬st.at_end then
      if st.currentToken.type = .SEMICOLON then st.advance
      else if st.currentToken.type = .FN ∨ st.currentToken.type = .RETURN then st
      else Parser.synchronizeGo fuel st.advance
    else st

/-- `Parser::synchronize`: advance once, then skip to just past a `;` or to
an `fn`/`return` starter. -/
def Parser.synchronize (st : Parser) : Parser :=
  let st := st.advance
  Parser.synchronizeGo (st.tokens.length + 1) st

/-- Fuel-indexed body of the statement loop of
`Parser::parse_block_statement`; every iteration either parses a statement
(consuming its `return`) or synchronizes (advancing at least once), so
`tokens.length + 1` fuel always suffices. -/
def Parser.blockGo : Nat → List Statement → Parser → List Statement × Parser
  | 0, acc, st => (acc, st)
  | fuel + 1, acc, st =>
    if ¬st.check .RIGHT_BRACE ∧ ¬st.at_end then
      let (stmt?, st) := st.parse_statement
      match stmt? with
      | some stmt => Parser.blockGo fuel (acc ++ [stmt]) st
      | none => Parser.blockGo fuel acc st.synchronize
    else
      (acc, st)

/-- `Parser::parse_block_statement`. -/
def Parser.parse_block_statement (st : Parser) : BlockStatement × Parser :=
  let (left_brace, st) := st.consume .LEFT_BRACE "Expected '\x7b'"
  let (statements, st) := Parser.blockGo (st.tokens.length + 1) [] st
  let (right_brace, st) := st.consume .RIGHT_BRACE "Expected '\x7d' after block"
  (⟨statements, ⟨left_brace.span.start, right_brace.span.stop⟩⟩, st)

/-- `Parser::parse_function_declaration`. -/
def Parser.parse_function_declaration (st : Parser) : FunctionDeclaration × Parser :=
  let (fn_token, st) := st.consume .FN "Expected 'fn'"
  let (name_token, st) := st.consume .IDENTIFIER "Expected function name"
  let (_, st) := st.consume .LEFT_PAREN "Expected '(' after function name"
  let (_, st) := st.consume .RIGHT_PAREN "Expected ')' after parameters"
  let (return_type, st) := st.parse_type
  let (body, st) := st.parse_block_statement
  (⟨name_token.value, some return_type, some body,
    ⟨fn_token.span.start, body.span.stop⟩⟩, st)

/-- Fuel-indexed body of the declaration loop of
`Parser::parse_program`; each `fn` iteration consumes the `fn` token, and a
non-`fn` token stops the loop, so `tokens.length + 1` fuel always
suffices. -/
def Parser.programGo : Nat → List Declaration → Parser → List Declaration × Parser
  | 0, acc, st => (acc, st)
  | fuel + 1, acc, st =>
    if ¬st.at_end then
      if st.check .FN then
        let (func_decl, st) := st.parse_function_declaration
        Parser.programGo fuel (acc ++ [.functionDecl func_decl]) st
      else
        (acc, st.report_error "Expected function declaration")
    else
      (acc, st)

/-- `Parser::parse_program` (and `Parser::parse`, which just calls it). -/
def Parser.parse_program (st : Parser) : Program × Parser :=
  let (pkg?, st) :=
    if st.check .PACKAGE then
      let (pkg, st) := st.parse_package_declaration
      (some pkg, st)
    else
      ((none : Option PackageDeclaration), st)
  let (declarations, st) := Parser.programGo (st.tokens.length + 1) [] st
  (⟨pkg?, declarations, {}⟩, st)

/-- `Parser::parse`. -/
def Parser.parse (st : Parser) : Program × Parser :=
  st.parse_program

/-- Construct a parser over a token vector (the `Parser` constructor). -/
def Parser.init (tokens : List Token) : Parser :=
  { tokens := tokens }

/-! ## Values (`value.h` / `value.cpp`) -/

/-- `Value` from `value.h`: the tagged union over nil / 32-bit integer /
boolean.  The FUNCTION tag of `ValueType` has no constructible variant.
The `int32_t` payload is a Lean `Int`; every constant built by the compiler
is range-checked against the `int32_t` bounds where the code checks them,
and C++ signed-integer overflow in VM arithmetic is undefined behaviour,
which this embedding does not attempt to assign a meaning (results are the
unbounded integers). -/
inductive Value where
  | nil
  | integer (i : Int)
  | boolean (b : Bool)
deriving Repr, DecidableEq

/-- `Value::is_nil`. -/
def Value.is_nil : Value → Bool
  | .nil => true
  | _ => false

/-- `Value::is_integer`. -/
def Value.is_integer : Value → Bool
  | .integer _ => true
  | _ => false

/-- `Value::is_boolean`. -/
def Value.is_boolean : Value → Bool
  | .boolean _ => true
  | _ => false

/-- `Value::as_integer`; total here, with a junk value where the C++
throws — every VM call site guards it with `is_integer`. -/
def Value.as_integer : Value → Int
  | .integer i => i
  | _ => 0

/-- `Value::as_boolean`; total here, with a junk value where the C++
throws. -/
def Value.as_boolean : Value → Bool
  | .boolean b => b
  | _ => false

/-! ## Chunk (`chunk.h` / `chunk.cpp`) -/

/-- `OpCode` from `chunk.h`, in declaration order (the numeric encoding is
the enumerator index, starting at 0). -/
inductive OpCode where
  | OP_CONSTANT
  | OP_RETURN
  | OP_ADD | OP_SUBTRACT | OP_MULTIPLY | OP_DIVIDE
  | OP_EQUAL | OP_NOT_EQUAL
  | OP_LESS | OP_LESS_EQUAL | OP_GREATER | OP_GREATER_EQUAL
deriving Repr, DecidableEq

/-- The `uint8_t` value of an opcode (`static_cast<uint8_t>(opcode)`). -/
def OpCode.toByte : OpCode → Nat
  | .OP_CONSTANT => 0
  | .OP_RETURN => 1
  | .OP_ADD => 2
  | .OP_SUBTRACT => 3
  | .OP_MULTIPLY => 4
  | .OP_DIVIDE => 5
  | .OP_EQUAL => 6
  | .OP_NOT_EQUAL => 7
  | .OP_LESS => 8
  | .OP_LESS_EQUAL => 9
  | .OP_GREATER => 10
  | .OP_GREATER_EQUAL => 11

/-- `Chunk` from `chunk.h`: the bytecode buffer (bytes, each < 256 — the
C++ stores `uint8_t`) and the constant pool. -/
structure Chunk where
  code : List Nat := []
  constants : List Value := []
deriving Repr, DecidableEq

/-- `Chunk::write_byte`; the argument is truncated to `uint8_t` at this
boundary, as the C++ parameter type does. -/
def Chunk.write_byte (c : Chunk) (byte : Nat) : Chunk :=
  { c with code := c.code ++ [byte % 256] }

/-- `Chunk::write_opcode`. -/
def Chunk.write_opcode (c : Chunk) (opcode : OpCode) : Chunk :=
  c.write_byte opcode.toByte

/-- `Chunk::add_constant`: append and return the new constant's index. -/
def Chunk.add_constant (c : Chunk) (value : Value) : Nat × Chunk :=
  let c := { c with constants := c.constants ++ [value] }
  (c.constants.length - 1, c)

/-- `Chunk::empty`. -/
def Chunk.isEmpty (c : Chunk) : Bool := c.code.isEmpty

/-! ## Compiler (`compiler.h` / `compiler.cpp`) -/

/-- `CompileResult` from `compiler.h`. -/
inductive CompileResult where
  | OK
  | ERROR
deriving Repr, DecidableEq

/-- `std::stoi` as used by `Compiler::compile_expression`: skip leading
whitespace, accept an optional sign, convert the longest base-10 digit
prefix; no digits (`std::invalid_argument`) or a value outside the
`int32_t` range (`std::out_of_range`) throw — both exceptions land in the
same catch, so both are `none` here. -/
def stoi32 (s : String) : Option Int :=
  let l := s.data.dropWhile fun c =>
    c == ' ' || (9 ≤ c.toNat && c.toNat ≤ 13)
  let (sign, l) : Int × List Char :=
    match l with
    | '-' :: r => (-1, r)
    | '+' :: r => (1, r)
    | r => (1, r)
  let digits := l.takeWhile Char.isDigit
  if digits.isEmpty then none
  else
    let value : Int :=
      sign * (digits.foldl (fun a c => a * 10 + (c.toNat - 48)) 0 : Nat)
    if value < -2147483648 ∨ 2147483647 < value then none else some value

/-- The outcome of a `Compiler` entry point: the result status, the chunk
after the call, and the compiler's `error_message_` ("" when no error was
reported; `compile` clears it on entry, and each failing path overwrites it
exactly once before returning ERROR). -/
abbrev CompilerOutcome := CompileResult × Chunk × String

/-- Modelled from the spec (§9a): the opcode selection table for lowering a
`BinaryExpression`, pairing each operator with the VM opcode of the same
meaning. -/
def binary_operator_opcode : BinaryOperator → OpCode
  | .ADD => .OP_ADD
  | .SUBTRACT => .OP_SUBTRACT
  | .MULTIPLY => .OP_MULTIPLY
  | .DIVIDE => .OP_DIVIDE
  | .EQUAL => .OP_EQUAL
  | .NOT_EQUAL => .OP_NOT_EQUAL
  | .LESS_THAN => .OP_LESS
  | .LESS_EQUAL => .OP_LESS_EQUAL
  | .GREATER_THAN => .OP_GREATER
  | .GREATER_EQUAL => .OP_GREATER_EQUAL

/-- `Compiler::compile_expression`: an integer literal is converted with
`std::stoi`, appended to the constant pool, and — only then — the new
index is checked against the one-byte bound; `OP_CONSTANT <index>` is
emitted on success.  A `BinaryExpression` (modelled from the spec, §4.3
and §9a: the source at hand lowers only integer literals) compiles its
left child, then its right child, then emits the opcode matching its
operator. -/
def Compiler.compile_expression : Expression → Chunk → CompilerOutcome
  | .integerLiteral text _, chunk =>
    match stoi32 text with
    | some value =>
      let const_idx := (chunk.add_constant (.integer value)).1
      let chunk := (chunk.add_constant (.integer value)).2
      if const_idx > 255 then
        (.ERROR, chunk, "Too many constants")
      else
        let chunk := (chunk.write_opcode .OP_CONSTANT).write_byte const_idx
        (.OK, chunk, "")
    | none =>
      (.ERROR, chunk, "Invalid integer literal: " ++ text)
  | .binaryExpression op left right _, chunk =>
    match Compiler.compile_expression left chunk with
    | (.OK, chunk, _) =>
      match Compiler.compile_expression right chunk with
      | (.OK, chunk, _) => (.OK, chunk.write_opcode (binary_operator_opcode op), "")
      | err => err
    | err => err

/-- `Compiler::compile_statement`: only RETURN statements are recognized; a
bare `return;` pushes a Nil constant (whose index is written unchecked). -/
def Compiler.compile_statement : Statement → Chunk → CompilerOutcome
  | .returnStatement expression? _, chunk =>
    match expression? with
    | some expression =>
      match Compiler.compile_expression expression chunk with
      | (.OK, chunk, _) => (.OK, chunk.write_opcode .OP_RETURN, "")
      | err => err
    | none =>
      let nil_idx := (chunk.add_constant .nil).1
      let chunk := (chunk.add_constant .nil).2
      let chunk := (chunk.write_opcode .OP_CONSTANT).write_byte nil_idx
      (.OK, chunk.write_opcode .OP_RETURN, "")
  | .blockStatementStmt _ _, _chunk =>
    (.ERROR, _chunk, "Unsupported statement type")

/-- The statement loop of `Compiler::compile_function`: lower each
statement in order, stopping at the first error. -/
def Compiler.compileStatements : List Statement → Chunk → CompilerOutcome
  | [], chunk => (.OK, chunk, "")
  | stmt :: rest, chunk =>
    match Compiler.compile_statement stmt chunk with
    | (.OK, chunk, _) => Compiler.compileStatements rest chunk
    | err => err

/-- `Compiler::compile_function`. -/
def Compiler.compile_function (func : FunctionDeclaration) (chunk : Chunk) :
    CompilerOutcome :=
  match func.body with
  | none => (.ERROR, chunk, "Function has no body")
  | some body => Compiler.compileStatements body.statements chunk

/-- `Compiler::compile`: exactly one declaration, which must be a function
declaration (`dynamic_cast`), is lowered. -/
def Compiler.compile (program : Program) (chunk : Chunk) : CompilerOutcome :=
  match program.declarations with
  | [] => (.ERROR, chunk, "No functions to compile")
  | [.functionDecl func_decl] => Compiler.compile_function func_decl chunk
  | [.packageDecl _] => (.ERROR, chunk, "Expected function declaration")
  | _ => (.ERROR, chunk, "Multiple functions not yet supported")

/-! ## VM (`vm.h` / `vm.cpp`) -/

/-- `VMResult` from `vm.h`. -/
inductive VMResult where
  | OK
  | COMPILE_ERROR
  | RUNTIME_ERROR
deriving Repr, DecidableEq

/-- `VMConfig` from `vm.h`. -/
structure VMConfig where
  debug_mode : Bool := false
  max_stack_size : Nat := 256
deriving Repr, DecidableEq

/-- The `VM` state (`vm.h`): configuration, operand stack (list head = top
of stack = `stack_.back()`), and `error_message_`. -/
structure VMState where
  config : VMConfig := {}
  stack : List Value := []
  error_message : String := ""
deriving Repr, DecidableEq

/-- `VM::runtime_error`: record the message (logging aside). -/
def VMState.runtime_error (st : VMState) (message : String) : VMState :=
  { st with error_message := message }

/-- `VM::push`: past the configured bound, record "Stack overflow" and drop
the value — note that this only sets the error message; it does not by
itself make `run` return an error. -/
def VMState.push (st : VMState) (value : Value) : VMState :=
  if st.stack.length ≥ st.config.max_stack_size then
    st.runtime_error "Stack overflow"
  else
    { st with stack := value :: st.stack }

/-- `VM::pop`; total here, with a junk value on the empty stack where the
C++ throws — every call site in `run` guards the stack size first. -/
def VMState.pop (st : VMState) : Value × VMState :=
  match st.stack with
  | [] => (.nil, st)
  | v :: rest => (v, { st with stack := rest })

/-- `VM::peek_stack_top` (`stack_.back()`); total here, with a junk value
on the empty stack where the C++ throws. -/
def VMState.peek_stack_top (st : VMState) : Value :=
  st.stack.headD .nil

/-- `VM::is_stack_empty`. -/
def VMState.is_stack_empty (st : VMState) : Bool := st.stack.isEmpty

/-- `VM::get_stack_size`. -/
def VMState.get_stack_size (st : VMState) : Nat := st.stack.length

/-- `VM::reset`. -/
def VMState.reset (st : VMState) : VMState :=
  { st with stack := [], error_message := "" }

/-- The `VM` constructor: members start empty and the constructor calls
`reset()`. -/
def VMState.fresh (config : VMConfig := {}) : VMState :=
  { config := config }

/-- The outcome of one iteration of the `VM::run` loop body (the `switch`
of `vm.cpp`): `next` continues the loop at the given instruction pointer
(a `break` in the switch), `halt` leaves `run` with the given result (a
`return` in the switch). -/
inductive StepResult where
  | next (ip : Nat) (st : VMState)
  | halt (result : VMResult) (st : VMState)
deriving Repr, DecidableEq

/-- The state carried by a step outcome. -/
def StepResult.state : StepResult → VMState
  | .next _ st => st
  | .halt _ st => st

/-- The `OP_CONSTANT` case of the `vm.cpp` switch (`ip` already advanced
past the opcode byte): check the operand byte exists, load the constant,
check the index, push. -/
def VMState.stepConstant (st : VMState) (chunk : Chunk) (ip : Nat) : StepResult :=
  if ip ≥ chunk.code.length then
    .halt .RUNTIME_ERROR (st.runtime_error "Missing constant index after OP_CONSTANT")
  else
    let constant_index := chunk.code.getD ip 0
    if constant_index ≥ chunk.constants.length then
      .halt .RUNTIME_ERROR (st.runtime_error
        "Invalid constant index: Constant index out of range")
    else
      .next (ip + 1) (st.push (chunk.constants.getD constant_index .nil))

/-- The `OP_RETURN` case of the `vm.cpp` switch: pop the top value and push
it back, stopping the loop with OK; on an empty stack, a runtime error. -/
def VMState.stepReturn (st : VMState) : StepResult :=
  if st.stack.isEmpty then
    .halt .RUNTIME_ERROR (st.runtime_error "Cannot return: stack is empty")
  else
    let result := st.pop.1
    let st := st.pop.2
    .halt .OK (st.push result)

/-- The `OP_ADD` case of the `vm.cpp` switch. -/
def VMState.stepAdd (st : VMState) (ip : Nat) : StepResult :=
  if st.stack.length < 2 then
    .halt .RUNTIME_ERROR (st.runtime_error "Not enough values on stack for addition")
  else
    let b := st.pop.1
    let st := st.pop.2
    let a := st.pop.1
    let st := st.pop.2
    if ¬(a.is_integer ∧ b.is_integer) then
      .halt .RUNTIME_ERROR (st.runtime_error "Addition requires integer values")
    else
      .next ip (st.push (.integer (a.as_integer + b.as_integer)))

/-- The `OP_SUBTRACT` case of the `vm.cpp` switch. -/
def VMState.stepSubtract (st : VMState) (ip : Nat) : StepResult :=
  if st.stack.length < 2 then
    .halt .RUNTIME_ERROR (st.runtime_error "Not enough values on stack for subtraction")
  else
    let b := st.pop.1
    let st := st.pop.2
    let a := st.pop.1
    let st := st.pop.2
    if ¬(a.is_integer ∧ b.is_integer) then
      .halt .RUNTIME_ERROR (st.runtime_error "Subtraction requires integer values")
    else
      .next ip (st.push (.integer (a.as_integer - b.as_integer)))

/-- The `OP_MULTIPLY` case of the `vm.cpp` switch. -/
def VMState.stepMultiply (st : VMState) (ip : Nat) : StepResult :=
  if st.stack.length < 2 then
    .halt .RUNTIME_ERROR (st.runtime_error
      "Not enough values on stack for multiplication")
  else
    let b := st.pop.1
    let st := st.pop.2
    let a := st.pop.1
    let st := st.pop.2
    if ¬(a.is_integer ∧ b.is_integer) then
      .halt .RUNTIME_ERROR (st.runtime_error "Multiplication requires integer values")
    else
      .next ip (st.push (.integer (a.as_integer * b.as_integer)))

/-- The `OP_DIVIDE` case of the `vm.cpp` switch: like the other arithmetic
cases, with the zero check on the divisor `b` (popped first) between the
type check and the division; `Int.tdiv` is C++ `int` division (truncation
toward zero). -/
def VMState.stepDivide (st : VMState) (ip : Nat) : StepResult :=
  if st.stack.length < 2 then
    .halt .RUNTIME_ERROR (st.runtime_error "Not enough values on stack for division")
  else
    let b := st.pop.1
    let st := st.pop.2
    let a := st.pop.1
    let st := st.pop.2
    if ¬(a.is_integer ∧ b.is_integer) then
      .halt .RUNTIME_ERROR (st.runtime_error "Division requires integer values")
    else if b.as_integer = 0 then
      .halt .RUNTIME_ERROR (st.runtime_error "Division by zero")
    else
      .next ip (st.push (.integer (a.as_integer.tdiv b.as_integer)))

/-- The `OP_EQUAL` case of the `vm.cpp` switch: full `Value` equality, any
discriminants. -/
def VMState.stepEqual (st : VMState) (ip : Nat) : StepResult :=
  if st.stack.length < 2 then
    .halt .RUNTIME_ERROR (st.runtime_error
      "Not enough values on stack for equality comparison")
  else
    let b := st.pop.1
    let st := st.pop.2
    let a := st.pop.1
    let st := st.pop.2
    .next ip (st.push (.boolean (a = b)))

/-- The `OP_NOT_EQUAL` case of the `vm.cpp` switch. -/
def VMState.stepNotEqual (st : VMState) (ip : Nat) : StepResult :=
  if st.stack.length < 2 then
    .halt .RUNTIME_ERROR (st.runtime_error
      "Not enough values on stack for inequality comparison")
  else
    let b := st.pop.1
    let st := st.pop.2
    let a := st.pop.1
    let st := st.pop.2
    .next ip (st.push (.boolean (a ≠ b)))

/-- The `OP_LESS` case of the `vm.cpp` switch. -/
def VMState.stepLess (st : VMState) (ip : Nat) : StepResult :=
  if st.stack.length < 2 then
    .halt .RUNTIME_ERROR (st.runtime_error
      "Not enough values on stack for less than comparison")
  else
    let b := st.pop.1
    let st := st.pop.2
    let a := st.pop.1
    let st := st.pop.2
    if ¬(a.is_integer ∧ b.is_integer) then
      .halt .RUNTIME_ERROR (st.runtime_error
        "Less than comparison requires integer values")
    else
      .next ip (st.push (.boolean (a.as_integer < b.as_integer)))

/-- The `OP_LESS_EQUAL` case of the `vm.cpp` switch. -/
def VMState.stepLessEqual (st : VMState) (ip : Nat) : StepResult :=
  if st.stack.length < 2 then
    .halt .RUNTIME_ERROR (st.runtime_error
      "Not enough values on stack for less or equal comparison")
  else
    let b := st.pop.1
    let st := st.pop.2
    let a := st.pop.1
    let st := st.pop.2
    if ¬(a.is_integer ∧ b.is_integer) then
      .halt .RUNTIME_ERROR (st.runtime_error
        "Less or equal comparison requires integer values")
    else
      .next ip (st.push (.boolean (a.as_integer ≤ b.as_integer)))

/-- The `OP_GREATER` case of the `vm.cpp` switch. -/
def VMState.stepGreater (st : VMState) (ip : Nat) : StepResult :=
  if st.stack.length < 2 then
    .halt .RUNTIME_ERROR (st.runtime_error
      "Not enough values on stack for greater than comparison")
  else
    let b := st.pop.1
    let st := st.pop.2
    let a := st.pop.1
    let st := st.pop.2
    if ¬(a.is_integer ∧ b.is_integer) then
      .halt .RUNTIME_ERROR (st.runtime_error
        "Greater than comparison requires integer values")
    else
      .next ip (st.push (.boolean (a.as_integer > b.as_integer)))

/-- The `OP_GREATER_EQUAL` case of the `vm.cpp` switch. -/
def VMState.stepGreaterEqual (st : VMState) (ip : Nat) : StepResult :=
  if st.stack.length < 2 then
    .halt .RUNTIME_ERROR (st.runtime_error
      "Not enough values on stack for greater or equal comparison")
  else
    let b := st.pop.1
    let st := st.pop.2
    let a := st.pop.1
    let st := st.pop.2
    if ¬(a.is_integer ∧ b.is_integer) then
      .halt .RUNTIME_ERROR (st.runtime_error
        "Greater or equal comparison requires integer values")
    else
      .next ip (st.push (.boolean (a.as_integer ≥ b.as_integer)))

/-- One iteration of the fetch-decode-execute loop of `VM::run`, for
`ip < code.length`: fetch the byte at `ip` (the C++ local `instruction`,
written out at each use here), advance `ip`, and dispatch to the matching
`switch` case of `vm.cpp`; a byte above the opcode range falls to the
`default` case. -/
def VMState.step (chunk : Chunk) (ip : Nat) (st : VMState) : StepResult :=
  if chunk.code.getD ip 0 = 0 then st.stepConstant chunk (ip + 1)
  else if chunk.code.getD ip 0 = 1 then st.stepReturn
  else if chunk.code.getD ip 0 = 2 then st.stepAdd (ip + 1)
  else if chunk.code.getD ip 0 = 3 then st.stepSubtract (ip + 1)
  else if chunk.code.getD ip 0 = 4 then st.stepMultiply (ip + 1)
  else if chunk.code.getD ip 0 = 5 then st.stepDivide (ip + 1)
  else if chunk.code.getD ip 0 = 6 then st.stepEqual (ip + 1)
  else if chunk.code.getD ip 0 = 7 then st.stepNotEqual (ip + 1)
  else if chunk.code.getD ip 0 = 8 then st.stepLess (ip + 1)
  else if chunk.code.getD ip 0 = 9 then st.stepLessEqual (ip + 1)
  else if chunk.code.getD ip 0 = 10 then st.stepGreater (ip + 1)
  else if chunk.code.getD ip 0 = 11 then st.stepGreaterEqual (ip + 1)
  else
    .halt .RUNTIME_ERROR (st.runtime_error
      ("Unknown opcode: " ++ toString (chunk.code.getD ip 0)))

/-- Fuel-indexed fetch-decode-execute loop of `VM::run`.  The instruction
pointer strictly increases every iteration (by 2 after `OP_CONSTANT`, else
by 1) and the loop stops at `code.length`, so `code.length + 1` fuel always
suffices.  Falling out of the loop yields OK. -/
def VMState.runLoop (chunk : Chunk) : Nat → Nat → VMState → VMResult × VMState
  | 0, _, st => (.OK, st)
  | fuel + 1, ip, st =>
    if ip < chunk.code.length then
      match VMState.step chunk ip st with
      | .next ip st => VMState.runLoop chunk fuel ip st
      | .halt result st => (result, st)
    else
      (.OK, st)

/-- `VM::run`: an empty chunk is OK immediately; otherwise run the loop
from offset 0. -/
def VMState.run (st : VMState) (chunk : Chunk) : VMResult × VMState :=
  if chunk.isEmpty then (.OK, st)
  else VMState.runLoop chunk (chunk.code.length + 1) 0 st

/-! ## The pipeline (as driven by the tests and the CLI) -/

/-- The observable results of running the four stages in order on a source
string: lex, parse, compile into a fresh chunk, and execute on a freshly
constructed default VM. -/
structure PipelineResult where
  tokens : List Token
  parse_errors : List ParserError
  compile_result : CompileResult
  chunk : Chunk
  compile_message : String
  vm_result : VMResult
  vm : VMState
deriving Repr

/-- Run Lexer → Parser → Compiler → VM on a source string. -/
def runPipeline (source : String) : PipelineResult :=
  let tokens := tokenizeString source
  let (program, pst) := (Parser.init tokens).parse
  let (compile_result, chunk, compile_message) := Compiler.compile program {}
  let (vm_result, vm) := (VMState.fresh {}).run chunk
  { tokens := tokens
    parse_errors := pst.errors
    compile_result := compile_result
    chunk := chunk
    compile_message := compile_message
    vm_result := vm_result
    vm := vm }

/-! ## Concrete artifacts used by the theorems -/

/-- A chunk whose constant pool already holds 255 entries. -/
def chunk255 : Chunk := { constants := List.replicate 255 (Value.integer 0) }

/-- A chunk whose constant pool already holds 256 entries. -/
def chunk256 : Chunk := { constants := List.replicate 256 (Value.integer 0) }

/-- A default-configured VM whose operand stack already holds
`max_stack_size = 256` values. -/
def fullStackVM : VMState := { stack := List.replicate 256 (Value.integer 1) }

/-- Bytecode `OP_CONSTANT 0, OP_RETURN` over the pool `[Integer 7]`. -/
def constantThenReturnChunk : Chunk := { code := [0, 0, 1], constants := [.integer 7] }

/-! ## General lemmas about the VM -/

/-- `pop` leaves the configuration unchanged. -/
theorem VMState.pop_config (st : VMState) : (st.pop).2.config = st.config := by
  unfold VMState.pop; cases st.stack <;> rfl

/-- `push` leaves the configuration unchanged. -/
theorem VMState.push_config (st : VMState) (v : Value) :
    (st.push v).config = st.config := by
  unfold VMState.push; split <;> rfl

/-- The state of a `next` outcome. -/
theorem StepResult.state_next (ip : Nat) (st : VMState) :
    (StepResult.next ip st).state = st := rfl

/-- The state of a `halt` outcome. -/
theorem StepResult.state_halt (r : VMResult) (st : VMState) :
    (StepResult.halt r st).state = st := rfl

/-- The `OP_CONSTANT` case leaves the configuration unchanged. -/
theorem VMState.stepConstant_config (st : VMState) (chunk : Chunk) (ip : Nat) :
    ((st.stepConstant chunk ip).state).config = st.config := by
  unfold VMState.stepConstant
  simp only [apply_ite StepResult.state, StepResult.state_next, StepResult.state_halt]
  split_ifs <;>
    simp only [VMState.pop_config, VMState.push_config, VMState.runtime_error]

/-- The `OP_RETURN` case leaves the configuration unchanged. -/
theorem VMState.stepReturn_config (st : VMState) :
    ((st.stepReturn).state).config = st.config := by
  unfold VMState.stepReturn
  simp only [apply_ite StepResult.state, StepResult.state_next, StepResult.state_halt]
  split_ifs <;>
    simp only [VMState.pop_config, VMState.push_config, VMState.runtime_error]

/-- The `OP_ADD` case leaves the configuration unchanged. -/
theorem VMState.stepAdd_config (st : VMState) (ip : Nat) :
    ((st.stepAdd ip).state).config = st.config := by
  unfold VMState.stepAdd
  simp only [apply_ite StepResult.state, StepResult.state_next, StepResult.state_halt]
  split_ifs <;>
    simp only [VMState.pop_config, VMState.push_config, VMState.runtime_error]

/-- The `OP_SUBTRACT` case leaves the configuration unchanged. -/
theorem VMState.stepSubtract_config (st : VMState) (ip : Nat) :
    ((st.stepSubtract ip).state).config = st.config := by
  unfold VMState.stepSubtract
  simp only [apply_ite StepResult.state, StepResult.state_next, StepResult.state_halt]
  split_ifs <;>
    simp only [VMState.pop_config, VMState.push_config, VMState.runtime_error]

/-- The `OP_MULTIPLY` case leaves the configuration unchanged. -/
theorem VMState.stepMultiply_config (st : VMState) (ip : Nat) :
    ((st.stepMultiply ip).state).config = st.config := by
  unfold VMState.stepMultiply
  simp only [apply_ite StepResult.state, StepResult.state_next, StepResult.state_halt]
  split_ifs <;>
    simp only [VMState.pop_config, VMState.push_config, VMState.runtime_error]

/-- The `OP_DIVIDE` case leaves the configuration unchanged. -/
theorem VMState.stepDivide_config (st : VMState) (ip : Nat) :
    ((st.stepDivide ip).state).config = st.config := by
  unfold VMState.stepDivide
  simp only [apply_ite StepResult.state, StepResult.state_next, StepResult.state_halt]
  split_ifs <;>
    simp only [VMState.pop_config, VMState.push_config, VMState.runtime_error]

/-- The `OP_EQUAL` case leaves the configuration unchanged. -/
theorem VMState.stepEqual_config (st : VMState) (ip : Nat) :
    ((st.stepEqual ip).state).config = st.config := by
  unfold VMState.stepEqual
  simp only [apply_ite StepResult.state, StepResult.state_next, StepResult.state_halt]
  split_ifs <;>
    simp only [VMState.pop_config, VMState.push_config, VMState.runtime_error]

/-- The `OP_NOT_EQUAL` case leaves the configuration unchanged. -/
theorem VMState.stepNotEqual_config (st : VMState) (ip : Nat) :
    ((st.stepNotEqual ip).state).config = st.config := by
  unfold VMState.stepNotEqual
  simp only [apply_ite StepResult.state, StepResult.state_next, StepResult.state_halt]
  split_ifs <;>
    simp only [VMState.pop_config, VMState.push_config, VMState.runtime_error]

/-- The `OP_LESS` case leaves the configuration unchanged. -/
theorem VMState.stepLess_config (st : VMState) (ip : Nat) :
    ((st.stepLess ip).state).config = st.config := by
  unfold VMState.stepLess
  simp only [apply_ite StepResult.state, StepResult.state_next, StepResult.state_halt]
  split_ifs <;>
    simp only [VMState.pop_config, VMState.push_config, VMState.runtime_error]

/-- The `OP_LESS_EQUAL` case leaves the configuration unchanged. -/
theorem VMState.stepLessEqual_config (st : VMState) (ip : Nat) :
    ((st.stepLessEqual ip).state).config = st.config := by
  unfold VMState.stepLessEqual
  simp only [apply_ite StepResult.state, StepResult.state_next, StepResult.state_halt]
  split_ifs <;>
    simp only [VMState.pop_config, VMState.push_config, VMState.runtime_error]

/-- The `OP_GREATER` case leaves the configuration unchanged. -/
theorem VMState.stepGreater_config (st : VMState) (ip : Nat) :
    ((st.stepGreater ip).state).config = st.config := by
  unfold VMState.stepGreater
  simp only [apply_ite StepResult.state, StepResult.state_next, StepResult.state_halt]
  split_ifs <;>
    simp only [VMState.pop_config, VMState.push_config, VMState.runtime_error]

/-- The `OP_GREATER_EQUAL` case leaves the configuration unchanged. -/
theorem VMState.stepGreaterEqual_config (st : VMState) (ip : Nat) :
    ((st.stepGreaterEqual ip).state).config = st.config := by
  unfold VMState.stepGreaterEqual
  simp only [apply_ite StepResult.state, StepResult.state_next, StepResult.state_halt]
  split_ifs <;>
    simp only [VMState.pop_config, VMState.push_config, VMState.runtime_error]

/-- One loop iteration leaves the configuration unchanged. -/
theorem VMState.step_config (chunk : Chunk) (ip : Nat) (st : VMState) :
    ((VMState.step chunk ip st).state).config = st.config := by
  unfold VMState.step
  simp only [apply_ite StepResult.state, apply_ite VMState.config,
    VMState.stepConstant_config, VMState.stepReturn_config, VMState.stepAdd_config,
    VMState.stepSubtract_config, VMState.stepMultiply_config, VMState.stepDivide_config,
    VMState.stepEqual_config, VMState.stepNotEqual_config, VMState.stepLess_config,
    VMState.stepLessEqual_config, VMState.stepGreater_config,
    VMState.stepGreaterEqual_config, StepResult.state_halt, VMState.runtime_error,
    ite_self]

/-- The whole loop leaves the configuration unchanged. -/
theorem VMState.runLoop_config (chunk : Chunk) (fuel : Nat) :
    ∀ (ip : Nat) (st : VMState),
      ((VMState.runLoop chunk fuel ip st).2).config = st.config := by
  induction fuel with
  | zero => intro ip st; rfl
  | succ n ih =>
    intro ip st
    rw [VMState.runLoop]
    split
    · rcases h : VMState.step chunk ip st with ⟨ip2, st2⟩ | ⟨r, st2⟩
      · have hc := VMState.step_config chunk ip st
        rw [h] at hc
        simp only [h]
        exact (ih ip2 st2).trans hc
      · have hc := VMState.step_config chunk ip st
        rw [h] at hc
        simp only [h]
        exact hc
    · rfl

/-- `run` leaves the configuration unchanged. -/
theorem VMState.run_config (st : VMState) (chunk : Chunk) :
    ((st.run chunk).2).config = st.config := by
  unfold VMState.run
  split
  · rfl
  · exact VMState.runLoop_config chunk (chunk.code.length + 1) 0 st

/-- At or past the end of the code, the loop stops with OK. -/
theorem VMState.runLoop_done (chunk : Chunk) (fuel ip : Nat) (st : VMState)
    (h : ¬ip < chunk.code.length) :
    VMState.runLoop chunk fuel ip st = (.OK, st) := by
  cases fuel with
  | zero => rfl
  | succ n => rw [VMState.runLoop, if_neg h]

/-- Running a non-empty chunk performs the first instruction's step and, on
`next`, continues the loop with the remaining fuel. -/
theorem VMState.run_cons (b : Nat) (tail : List Nat) (consts : List Value)
    (st : VMState) :
    st.run ⟨b :: tail, consts⟩ =
      match VMState.step ⟨b :: tail, consts⟩ 0 st with
      | .next ip st2 => VMState.runLoop ⟨b :: tail, consts⟩ (tail.length + 1) ip st2
      | .halt r st2 => (r, st2) := by
  unfold VMState.run
  rw [if_neg (by simp [Chunk.isEmpty])]
  simp only [List.length_cons]
  rw [VMState.runLoop, if_pos (by simp)]

/-- A chunk starting with byte 5 dispatches to the `OP_DIVIDE` case. -/
theorem VMState.step_cons_divide (tail : List Nat) (consts : List Value)
    (st : VMState) :
    VMState.step ⟨5 :: tail, consts⟩ 0 st = st.stepDivide 1 := by
  unfold VMState.step
  norm_num

/-- A chunk starting with byte 1 dispatches to the `OP_RETURN` case. -/
theorem VMState.step_cons_return (tail : List Nat) (consts : List Value)
    (st : VMState) :
    VMState.step ⟨1 :: tail, consts⟩ 0 st = st.stepReturn := by
  unfold VMState.step
  norm_num

/-- `pop` on a known cons stack. -/
theorem VMState.pop_cons (st : VMState) (v : Value) (rest : List Value)
    (h : st.stack = v :: rest) :
    st.pop = (v, { st with stack := rest }) := by
  unfold VMState.pop
  rw [h]

/-- `push` below the bound appends to the stack. -/
theorem VMState.push_ok (st : VMState) (v : Value)
    (h : st.stack.length < st.config.max_stack_size) :
    st.push v = { st with stack := v :: st.stack } := by
  unfold VMState.push
  rw [if_neg (by omega)]

/-- `OP_RETURN` on an empty stack: runtime error with the recorded message. -/
theorem VMState.stepReturn_empty (st : VMState) (h : st.stack = []) :
    st.stepReturn = .halt .RUNTIME_ERROR
      { st with error_message := "Cannot return: stack is empty" } := by
  unfold VMState.stepReturn
  rw [if_pos (by simp [h])]
  rfl

/-- `OP_RETURN` on a non-empty, in-bounds stack: pop then push restores the
state exactly and halts with OK. -/
theorem VMState.stepReturn_restore (st : VMState) (v : Value) (rest : List Value)
    (h : st.stack = v :: rest) (hlen : st.stack.length ≤ st.config.max_stack_size) :
    st.stepReturn = .halt .OK st := by
  unfold VMState.stepReturn
  rw [if_neg (by simp [h])]
  simp only [VMState.pop, h]
  rw [VMState.push_ok _ _ (by simp; rw [h] at hlen; simp at hlen; omega)]
  simp only []
  conv_rhs => rw [show st = { st with stack := v :: rest } by rw [← h]]

/-- `OP_DIVIDE` with fewer than two stack values: runtime error. -/
theorem VMState.stepDivide_underflow (st : VMState) (ip : Nat)
    (h : st.stack.length < 2) :
    st.stepDivide ip = .halt .RUNTIME_ERROR
      { st with error_message := "Not enough values on stack for division" } := by
  unfold VMState.stepDivide
  rw [if_pos h]
  rfl

/-- `OP_DIVIDE` with a non-integer operand: runtime error, operands popped. -/
theorem VMState.stepDivide_type_error (st : VMState) (ip : Nat) (b a : Value)
    (rest : List Value) (h : st.stack = b :: a :: rest)
    (hab : ¬(a.is_integer ∧ b.is_integer)) :
    st.stepDivide ip = .halt .RUNTIME_ERROR
      { st with stack := rest
                error_message := "Division requires integer values" } := by
  unfold VMState.stepDivide
  rw [if_neg (by rw [h]; simp)]
  simp only [VMState.pop, h]
  rw [if_pos (by simpa using hab)]
  rfl

/-- `OP_DIVIDE` with divisor 0 on top of the stack: runtime error before any
division, operands popped. -/
theorem VMState.stepDivide_div_zero (st : VMState) (ip : Nat) (a : Int)
    (rest : List Value) (h : st.stack = .integer 0 :: .integer a :: rest) :
    st.stepDivide ip = .halt .RUNTIME_ERROR
      { st with stack := rest, error_message := "Division by zero" } := by
  unfold VMState.stepDivide
  rw [if_neg (by rw [h]; simp)]
  simp only [VMState.pop, h]
  rw [if_neg (by simp [Value.is_integer])]
  rw [if_pos (by simp [Value.as_integer])]
  rfl

/-- `OP_DIVIDE` on two integers with nonzero divisor: the truncated quotient
replaces the operands. -/
theorem VMState.stepDivide_ok (st : VMState) (ip : Nat) (b a : Int)
    (rest : List Value) (h : st.stack = .integer b :: .integer a :: rest)
    (hb : b ≠ 0) (hlen : rest.length < st.config.max_stack_size) :
    st.stepDivide ip = .next ip { st with stack := .integer (a.tdiv b) :: rest } := by
  unfold VMState.stepDivide
  rw [if_neg (by rw [h]; simp)]
  simp only [VMState.pop, h]
  rw [if_neg (by simp [Value.is_integer])]
  rw [if_neg (by simpa [Value.as_integer] using hb)]
  rw [VMState.push_ok _ _ (by simpa using hlen)]
  simp [Value.as_integer]

/-! ## General lemmas about the lexer -/

/-- In any prefix of a `tokenize_all` result that excludes the final token,
no token is an EOF token: the loop pushes EOF at most once, and then stops
immediately. -/
theorem Lexer.tokenizeAllGo_no_eof_before_last (fuel : Nat) :
    ∀ st : Lexer, (((Lexer.tokenizeAllGo fuel st).1.dropLast).all
      fun t => t.type != TokenType.EOF_TOKEN) = true := by
  induction fuel with
  | zero => intro st; rfl
  | succ n ih =>
    intro st
    rw [Lexer.tokenizeAllGo]
    split
    · rfl
    · rcases h : st.next_token with ⟨t, st2⟩
      simp only []
      split
      · rfl
      · rename_i hne
        rcases hg : Lexer.tokenizeAllGo n st2 with ⟨ts, st3⟩
        have ihs := ih st2
        rw [hg] at ihs
        cases ts with
        | nil => rfl
        | cons t2 ts2 =>
          simp only [List.dropLast_cons₂, List.all_cons, ihs, Bool.and_true]
          simpa using hne

/-! ## The claims -/

set_option maxRecDepth 8192 in
/-- Claim C1: for the token sequence of the source `"2 + 3 * 4"` used as an
expression, the parser produces a `BinaryExpression` with operator `+`,
whose left child is `IntegerLiteral("2")` and whose right child is
`BinaryExpression(*, IntegerLiteral("3"), IntegerLiteral("4"))` —
multiplicative binds tighter than additive. -/
theorem parse_precedence_two_plus_three_times_four :
    (((Parser.init (tokenizeString "2 + 3 * 4")).parse_expression).1).map
        Expression.shape
      = some (.bin .ADD (.lit "2")
          (.bin .MULTIPLY (.lit "3") (.lit "4"))) := by
  decide

set_option maxRecDepth 8192 in
/-- Claim C2: running the whole pipeline — Lexer, Parser, Compiler, VM — on
the source `"package main; fn main() i32 { return 2 + 3 * 4; }"`, the
compiler returns OK, the VM returns OK, and the final top-of-stack value is
`Integer(14)`. -/
theorem pipeline_two_plus_three_times_four_returns_fourteen :
    (runPipeline "package main; fn main() i32 { return 2 + 3 * 4; }").compile_result
        = CompileResult.OK
    ∧ (runPipeline "package main; fn main() i32 { return 2 + 3 * 4; }").vm_result
        = VMResult.OK
    ∧ (runPipeline "package main; fn main() i32 { return 2 + 3 * 4; }").vm.peek_stack_top
        = Value.integer 14 := by
  decide

set_option maxRecDepth 8192 in
/-- Claim C3 (the code, not the claim): on a default VM whose stack already
holds `max_stack_size = 256` values, running bytecode that pushes one more
value does NOT return RUNTIME_ERROR and does NOT stop: `push` only records
"Stack overflow" in the error message and drops the value, the loop keeps
executing (here the subsequent `OP_RETURN` completes normally), and `run`
returns OK — contradicting the claim and §4.4 of the specification, while
`VM::runtime_error` exists precisely to flag fatal runtime errors and every
other use of it is followed by an early RUNTIME_ERROR return. -/
theorem run_full_stack_push_returns_ok_despite_overflow :
    (fullStackVM.run constantThenReturnChunk).1 = VMResult.OK
    ∧ ((fullStackVM.run constantThenReturnChunk).2).error_message = "Stack overflow"
    ∧ ((fullStackVM.run constantThenReturnChunk).2).stack.length = 256 := by
  decide

set_option maxRecDepth 8192 in
/-- Claim C4, counterexample: `tokenize_all` does not always end with an
EOF token.  The loop runs only while `at_end()` is false, so the empty
string yields no tokens at all, and a source whose last token consumes the
final character (here `"fn"`) yields a sequence with no EOF token. -/
theorem tokenize_all_no_eof_counterexample :
    tokenizeString "" = []
    ∧ (tokenizeString "fn").map Token.type = [TokenType.FN] := by
  decide

/-- Claim C4 as amended: `tokenize_all` returns the full ordered token
sequence, in which every token before the last is a non-EOF token — so an
EOF token appears at most once, and only in final position.  The sequence
ends with exactly one EOF token only when lexing is not at the end of input
after the last real token (e.g. on trailing whitespace, as in `"3 "`); the
empty string yields an empty sequence. -/
theorem tokenize_all_eof_at_most_once_final :
    (∀ source : String,
      (((tokenizeString source).dropLast).all
        fun t => t.type != TokenType.EOF_TOKEN) = true)
    ∧ (tokenizeString "3 ").map Token.type
        = [TokenType.INTEGER_LITERAL, TokenType.EOF_TOKEN]
    ∧ (tokenizeString "3").map Token.type = [TokenType.INTEGER_LITERAL] := by
  refine ⟨?_, by decide, by decide⟩
  intro source
  exact Lexer.tokenizeAllGo_no_eof_before_last _ _

set_option maxRecDepth 8192 in
/-- Claim C5, counterexample: with 255 entries already in the pool, lowering
an integer literal still succeeds (the new index 255 passes the
`> 255` check), emitting `OP_CONSTANT 255` and growing the pool to 256;
the error fires only with 256 pre-existing entries, and even then the
constant has already been appended, leaving 257 entries — so the pool is
not bounded to 256 entries. -/
theorem compile_constant_pool_bound_counterexample :
    (Compiler.compile_expression (.integerLiteral "7" {}) chunk255).1 = CompileResult.OK
    ∧ ((Compiler.compile_expression (.integerLiteral "7" {}) chunk255).2.1).constants.length = 256
    ∧ ((Compiler.compile_expression (.integerLiteral "7" {}) chunk255).2.1).code = [0, 255]
    ∧ (Compiler.compile_expression (.integerLiteral "7" {}) chunk256).1 = CompileResult.ERROR
    ∧ ((Compiler.compile_expression (.integerLiteral "7" {}) chunk256).2.2) = "Too many constants"
    ∧ ((Compiler.compile_expression (.integerLiteral "7" {}) chunk256).2.1).constants.length = 257 := by
  decide

/-- Claim C5 as amended: lowering an integer literal first appends the
parsed constant to the pool and only then checks the new index against the
one-byte bound.  With at most 255 pre-existing entries it succeeds,
emitting `OP_CONSTANT <index>` whose operand is the old pool size (hence
always ≤ 255); with 256 or more pre-existing entries it reports
"Too many constants" and returns ERROR — but the constant has already been
appended, so the failing call itself grows the pool past 256. -/
theorem compile_integer_literal_constant_bound (c : Chunk) (text : String)
    (v : Int) (sp : SourceSpan) (h : stoi32 text = some v) :
    (c.constants.length ≤ 255 →
      Compiler.compile_expression (.integerLiteral text sp) c =
        (.OK, { code := c.code ++ [0, c.constants.length],
                constants := c.constants ++ [.integer v] }, ""))
    ∧ (256 ≤ c.constants.length →
      Compiler.compile_expression (.integerLiteral text sp) c =
        (.ERROR, { c with constants := c.constants ++ [.integer v] },
          "Too many constants")) := by
  constructor <;> intro hlen <;>
    unfold Compiler.compile_expression <;>
    simp only [h] <;>
    simp only [Chunk.add_constant, List.length_append, List.length_cons,
      List.length_nil, Nat.add_sub_cancel]
  · rw [if_neg (by omega)]
    simp only [Chunk.write_opcode, Chunk.write_byte, OpCode.toByte]
    simp [Nat.mod_eq_of_lt (show c.constants.length < 256 by omega)]
  · rw [if_pos (by omega)]

/-- Claim C5, witness: lowering `7` into an empty chunk emits
`OP_CONSTANT 0` over the pool `[Integer 7]`. -/
theorem compile_integer_literal_constant_bound_witness :
    Compiler.compile_expression (.integerLiteral "7" {}) {} =
      (.OK, { code := [0, 0], constants := [Value.integer 7] }, "") := by
  have h := (compile_integer_literal_constant_bound {} "7" 7 {} (by decide)).1
    (by decide)
  simpa using h

set_option maxRecDepth 8192 in
/-- Claim C6: executing `OP_DIVIDE` — with fewer than two stack values,
`run` returns RUNTIME_ERROR; if either popped operand is not an Integer,
RUNTIME_ERROR; if the divisor `b` (popped first, pushed last) is 0,
RUNTIME_ERROR ("Division by zero") before dividing; otherwise
`Integer(a / b)` (C++ `int` division, i.e. truncation toward zero) is
pushed and the run of the one-instruction chunk ends OK.  The success case
is stated for operand values representable in `int32_t` whose quotient is
again representable (excluding `INT32_MIN / -1`, which is undefined
behaviour in C++), and for a stack within the configured bound.  And the
program `return 5 / 0;`, taken through the whole pipeline, compiles OK and
yields RUNTIME_ERROR with a non-empty message. -/
theorem op_divide_semantics :
    (∀ (st : VMState) (consts : List Value), st.stack.length < 2 →
       st.run ⟨[5], consts⟩ =
         (.RUNTIME_ERROR,
           { st with error_message := "Not enough values on stack for division" }))
    ∧ (∀ (st : VMState) (consts : List Value) (b a : Value) (rest : List Value),
       st.stack = b :: a :: rest → ¬(a.is_integer ∧ b.is_integer) →
       st.run ⟨[5], consts⟩ =
         (.RUNTIME_ERROR,
           { st with stack := rest
                     error_message := "Division requires integer values" }))
    ∧ (∀ (st : VMState) (consts : List Value) (a : Int) (rest : List Value),
       st.stack = .integer 0 :: .integer a :: rest →
       st.run ⟨[5], consts⟩ =
         (.RUNTIME_ERROR,
           { st with stack := rest, error_message := "Division by zero" }))
    ∧ (∀ (st : VMState) (consts : List Value) (b a : Int) (rest : List Value),
       st.stack = .integer b :: .integer a :: rest →
       st.stack.length ≤ st.config.max_stack_size →
       -2147483648 ≤ a → a ≤ 2147483647 → -2147483648 ≤ b → b ≤ 2147483647 →
       b ≠ 0 → ¬(a = -2147483648 ∧ b = -1) →
       st.run ⟨[5], consts⟩ = (.OK, { st with stack := .integer (a.tdiv b) :: rest }))
    ∧ ((runPipeline "package main; fn main() i32 { return 5 / 0; }").compile_result
         = CompileResult.OK
       ∧ (runPipeline "package main; fn main() i32 { return 5 / 0; }").vm_result
         = VMResult.RUNTIME_ERROR
       ∧ (runPipeline "package main; fn main() i32 { return 5 / 0; }").vm.error_message
         ≠ "") := by
  refine ⟨?_, ?_, ?_, ?_, by decide⟩
  · intro st consts h
    rw [VMState.run_cons, VMState.step_cons_divide, VMState.stepDivide_underflow st 1 h]
  · intro st consts b a rest h hab
    rw [VMState.run_cons, VMState.step_cons_divide,
      VMState.stepDivide_type_error st 1 b a rest h hab]
  · intro st consts a rest h
    rw [VMState.run_cons, VMState.step_cons_divide,
      VMState.stepDivide_div_zero st 1 a rest h]
  · intro st consts b a rest h hlen _ _ _ _ hb _
    rw [VMState.run_cons, VMState.step_cons_divide,
      VMState.stepDivide_ok st 1 b a rest h hb
        (by rw [h] at hlen; simp at hlen; omega)]
    exact VMState.runLoop_done _ _ _ _ (by simp)

set_option maxRecDepth 8192 in
/-- Claim C6, witness: `OP_DIVIDE` on an underflowing (empty) stack errors,
and on the stack `[2, 7]` (2 on top) leaves `[3]` — `7 / 2` truncated. -/
theorem op_divide_semantics_witness :
    ((VMState.fresh {}).run ⟨[5], []⟩).1 = VMResult.RUNTIME_ERROR
    ∧ ({ stack := [Value.integer 2, Value.integer 7] : VMState }).run ⟨[5], []⟩
        = (.OK, { stack := [Value.integer 3] }) := by
  constructor
  · rw [(op_divide_semantics).1 (VMState.fresh {}) [] (by decide)]
  · have h := (op_divide_semantics).2.2.2.1
      { stack := [.integer 2, .integer 7] } [] 2 7 []
      rfl (by decide) (by decide) (by decide) (by decide) (by decide)
      (by decide) (by decide)
    simpa using h

/-- Claim C7, counterexample: the runtime error message for `OP_RETURN` on
an empty stack is capitalized "Cannot return: stack is empty", not
"cannot return: stack is empty" as the claim quotes it. -/
theorem op_return_message_counterexample :
    ((VMState.fresh {}).run ⟨[1], []⟩).1 = VMResult.RUNTIME_ERROR
    ∧ ((VMState.fresh {}).run ⟨[1], []⟩).2.error_message
        = "Cannot return: stack is empty"
    ∧ ((VMState.fresh {}).run ⟨[1], []⟩).2.error_message
        ≠ "cannot return: stack is empty" := by
  decide

/-- Claim C7 as amended: executing `OP_RETURN` on a non-empty stack (within
the configured bound) pops the top value and pushes it back — leaving the
whole VM state exactly as it was — and stops the run with OK, ignoring any
remaining bytecode; on an empty stack it returns RUNTIME_ERROR with the
message "Cannot return: stack is empty" (capital C). -/
theorem op_return_check_then_restore :
    (∀ (st : VMState) (consts : List Value) (tail : List Nat) (v : Value)
       (rest : List Value),
       st.stack = v :: rest → st.stack.length ≤ st.config.max_stack_size →
       st.run ⟨1 :: tail, consts⟩ = (.OK, st))
    ∧ (∀ (st : VMState) (consts : List Value) (tail : List Nat),
       st.stack = [] →
       st.run ⟨1 :: tail, consts⟩ =
         (.RUNTIME_ERROR,
           { st with error_message := "Cannot return: stack is empty" })) := by
  constructor
  · intro st consts tail v rest h hlen
    rw [VMState.run_cons, VMState.step_cons_return,
      VMState.stepReturn_restore st v rest h hlen]
  · intro st consts tail h
    rw [VMState.run_cons, VMState.step_cons_return, VMState.stepReturn_empty st h]

/-- Claim C7, witness: `OP_RETURN` on the stack `[5]` restores it and stops
before the following (bogus) byte; on an empty stack it errors. -/
theorem op_return_check_then_restore_witness :
    ({ stack := [Value.integer 5] : VMState }).run ⟨[1, 9], []⟩
        = (.OK, { stack := [Value.integer 5] })
    ∧ (VMState.fresh {}).run ⟨[1], []⟩ =
        (.RUNTIME_ERROR, { error_message := "Cannot return: stack is empty" }) := by
  constructor
  · exact (op_return_check_then_restore).1 { stack := [.integer 5] } [] [9]
      (.integer 5) [] rfl (by decide)
  · simpa using (op_return_check_then_restore).2 (VMState.fresh {}) [] [] rfl

set_option maxRecDepth 8192 in
/-- Claim C8: compiling the program parsed from
`"package main; fn main() i32 { return 3; }"` produces exactly the code
bytes `[OP_CONSTANT, 0, OP_RETURN]` (numerically `[0, 0, 1]`) and the
constant pool `[Integer(3)]`.  The pipeline is a pure function of the
source, so the output is the same on every invocation. -/
theorem compile_return_three_bytecode :
    (runPipeline "package main; fn main() i32 { return 3; }").compile_result
        = CompileResult.OK
    ∧ (runPipeline "package main; fn main() i32 { return 3; }").chunk
        = { code := [OpCode.OP_CONSTANT.toByte, 0, OpCode.OP_RETURN.toByte],
            constants := [Value.integer 3] } := by
  decide

/-- Claim C9: after any run (with any outcome), `reset()` leaves the VM
with an empty stack and an empty error message — the very state of a
freshly constructed VM with the same configuration — and applying `reset`
again changes nothing. -/
theorem vm_reset_idempotent_fresh (st : VMState) (chunk : Chunk) :
    ((st.run chunk).2).reset = VMState.fresh st.config
    ∧ (((st.run chunk).2).reset).reset = ((st.run chunk).2).reset
    ∧ st.reset = VMState.fresh st.config := by
  refine ⟨?_, rfl, rfl⟩
  have h := VMState.run_config st chunk
  simp only [VMState.reset, VMState.fresh, h]

set_option maxRecDepth 8192 in
/-- Claim C10: the compiler parses an integer literal's text with
`std::stoi` — a permissive base-10 prefix parse — so the hex literal token
`"0x10"` compiles successfully to the wrong value: the pipeline on
`"fn main() i32 { return 0x10; }"` reports compiler OK with constant pool
`[Integer(0)]` (the parsed prefix "0"), not `[Integer(16)]` and not an
"Invalid integer literal" error.  The error fires only when the text has no
leading decimal digits (e.g. `"x"`) or its value is outside the 32-bit
range (e.g. `"3000000000"`). -/
theorem compile_hex_literal_prefix_parse :
    (runPipeline "fn main() i32 { return 0x10; }").compile_result = CompileResult.OK
    ∧ (runPipeline "fn main() i32 { return 0x10; }").chunk.constants
        = [Value.integer 0]
    ∧ (runPipeline "fn main() i32 { return 0x10; }").compile_message = ""
    ∧ (runPipeline "fn main() i32 { return 0x10; }").chunk.constants
        ≠ [Value.integer 16]
    ∧ (runPipeline "fn main() i32 { return 0x10; }").tokens.map Token.value
        = ["fn", "main", "", "", "i32", "", "return", "0x10", "", ""]
    ∧ Compiler.compile_expression (.integerLiteral "x" {}) {} =
        (.ERROR, {}, "Invalid integer literal: x")
    ∧ Compiler.compile_expression (.integerLiteral "3000000000" {}) {} =
        (.ERROR, {}, "Invalid integer literal: 3000000000")
    ∧ stoi32 "0x10" = some 0 := by
  decide

end Dacite
